import Mathlib

/-!
Shallow embedding of the CMP-Copilot workflow engine (src/cmp_copilot).

Each LangGraph node (`entry_router_node`, `supervisor_node`, `discovery_node`,
`execution_node`, `analysis_node`, `notification_node`, `cloning_node`) is
translated as a pure function from an explicit collaborator environment and
the current `AgentState` to the partial state update (`Delta`) it returns,
paired with the trace of external collaborator calls it performs.  External
effects (LLM completions, the OpenStack SDK, Ansible runs, SMTP, YAML config
loads, report files on disk) are supplied by the environment records; a
Python exception raised by a collaborator is an `Except.error` value, and the
node bodies reproduce the try/except branching of the source.  LangGraph's
channel merge (`operator.add` on the three append-only lists, replacement for
the other keys) is `applyDelta`.
-/

namespace CMP

/-- Matches when the first list occurs as a block at the head of the second. -/
def matchesAt : List Char → List Char → Bool
  | [], _ => true
  | _ :: _, [] => false
  | a :: as, b :: bs => a == b && matchesAt as bs

/-- Substring containment on character lists. -/
def containsChars (needle : List Char) : List Char → Bool
  | [] => matchesAt needle []
  | b :: bs => matchesAt needle (b :: bs) || containsChars needle bs

/-- Python's `needle in hay` on strings. -/
def strContains (hay needle : String) : Bool :=
  containsChars needle.data hay.data

/-- Python's `str.lower()` (ASCII range, which is all the code compares). -/
def pyLower (s : String) : String :=
  ⟨s.data.map Char.toLower⟩

/-- Python's `str.startswith(pre)`. -/
def strStartsWith (s pre : String) : Bool :=
  matchesAt pre.data s.data

/-- Python's `s[:n]` slice. -/
def strTake (s : String) (n : Nat) : String :=
  ⟨s.data.take n⟩

/-- Split a character list at `/`. -/
def splitSlash : List Char → List (List Char)
  | [] => [[]]
  | c :: rest =>
      let r := splitSlash rest
      if c = '/' then [] :: r
      else (c :: r.headD []) :: r.tail

/-- Python truthiness of an optional string: `None` and `""` are falsy. -/
def optTruthy : Option String → Bool
  | none => false
  | some s => s ≠ ""

/-- A virtual machine record as returned by the inventory collaborator
(`OpenStackClient.list_vms`): id, name, optional IP address, lifecycle
status. -/
structure VM where
  vid : String
  name : String
  ip_address : Option String
  status : String
deriving Repr, DecidableEq

/-- One vulnerability row extracted from an OVAL report
(`_extract_vulnerabilities_from_html` output element). -/
structure Finding where
  fid : String
  fclass : String
  references : String
  title : String
deriving Repr, DecidableEq

/-- The structured plan the supervisor parses from the planner collaborator. -/
structure Plan where
  action : Option String := none
  playbook : Option String := none
  filters : List (String × String) := []
deriving Repr, DecidableEq

/-- One per-target scan outcome dict: `run_playbook`'s result tagged with
`vm_name`, or the synthesized `skipped` dict for a target with no address. -/
structure Outcome where
  vm_name : String
  status : String
  report_path : Option String := none
  error : Option String := none
deriving Repr, DecidableEq, Inhabited

/-- The inbound `user_query`: free text, or the structured resume directive
posted by the acknowledgment webhook. -/
inductive UserQuery where
  | text (s : String)
  | directive (action : String) (report_id : String)
deriving Repr, DecidableEq

/-- Python `str(user_query)`: the text itself, or the dict's repr. -/
def UserQuery.asStr : UserQuery → String
  | .text s => s
  | .directive a r => "\x7b'action': '" ++ a ++ "', 'report_id': '" ++ r ++ "'\x7d"

/-- `AgentState` (agents/state.py): the record threaded through every node.
`awaiting_acknowledgment` is the truthiness of the `Optional[bool]` field;
`vulnerable_vms` is the list `state.get("vulnerable_vms", [])` reads. -/
structure AgentState where
  user_query : UserQuery
  plan : Option Plan := none
  target_vms : List VM := []
  scan_results : List Outcome := []
  error_log : List String := []
  final_summary : String := ""
  email_sent : Bool := false
  messages : List (String × String) := []
  next_node : Option String := none
  report_id : Option String := none
  vulnerable_vms : List VM := []
  awaiting_acknowledgment : Bool := false
  draft_email_subject : Option String := none
  draft_email_body : Option String := none
  draft_attachment_path : Option String := none
deriving Repr, DecidableEq

/-- The partial update a node returns: `none` / `[]` means the key is absent
from the returned dict.  Every `AgentState` channel a node could write has a
field here, so "this node never writes that key" is expressible. -/
structure Delta where
  plan : Option Plan := none
  target_vms : Option (List VM) := none
  scan_results : List Outcome := []
  error_log : List String := []
  final_summary : Option String := none
  email_sent : Option Bool := none
  messages : List (String × String) := []
  next_node : Option String := none
  report_id : Option String := none
  vulnerable_vms : Option (List VM) := none
  awaiting_acknowledgment : Option Bool := none
  draft_email_subject : Option String := none
  draft_email_body : Option String := none
  draft_attachment_path : Option String := none
deriving Repr, DecidableEq

/-- LangGraph channel merge: `operator.add` (append) for `scan_results`,
`error_log` and `messages`; last-value-wins replacement for every other key
present in the returned dict. -/
def applyDelta (s : AgentState) (d : Delta) : AgentState :=
  { user_query := s.user_query
    plan := match d.plan with | some q => some q | none => s.plan
    target_vms := d.target_vms.getD s.target_vms
    scan_results := s.scan_results ++ d.scan_results
    error_log := s.error_log ++ d.error_log
    final_summary := d.final_summary.getD s.final_summary
    email_sent := d.email_sent.getD s.email_sent
    messages := s.messages ++ d.messages
    next_node := match d.next_node with | some n => some n | none => s.next_node
    report_id := match d.report_id with | some r => some r | none => s.report_id
    vulnerable_vms := d.vulnerable_vms.getD s.vulnerable_vms
    awaiting_acknowledgment := d.awaiting_acknowledgment.getD s.awaiting_acknowledgment
    draft_email_subject :=
      match d.draft_email_subject with | some x => some x | none => s.draft_email_subject
    draft_email_body :=
      match d.draft_email_body with | some x => some x | none => s.draft_email_body
    draft_attachment_path :=
      match d.draft_attachment_path with | some x => some x | none => s.draft_attachment_path }

/-- One external collaborator call, as recorded in a node's trace. -/
inductive ExtCall where
  | llmPlan
  | llmStructuredSummary
  | llmEmailBody
  | llmUiSummary
  | llmEmailSubject
  | sendEmail (recipients : List String) (subject body : String)
      (attachment : Option String)
  | listServers
  | createNetwork (name : String)
  | createSnapshot (vmId snapName : String)
  | createFromSnapshot (cloneName snapshotId networkId : String)
  | ansibleRun (playbook host : String)
deriving Repr, DecidableEq

/-- `entry_router_node` (core/agent.py): decides among the three entry
targets and records the decision in `next_node`. -/
def entry_router_node (s : AgentState) : Delta × List ExtCall :=
  let decision :=
    if s.awaiting_acknowledgment then
      if strContains (pyLower s.user_query.asStr) "send email" then "send_notification"
      else "supervisor"
    else
      match s.user_query with
      | .directive a _ => if a = "initiate_cloning" then "start_cloning" else "supervisor"
      | .text _ => "supervisor"
  ({ next_node := some decision }, [])

/-- `route_from_entry` (core/agent.py): reads the recorded decision. -/
def route_from_entry (s : AgentState) : String :=
  s.next_node.getD "supervisor"

/-- `route_after_plan` (core/agent.py). -/
def route_after_plan (s : AgentState) : String :=
  let action := (s.plan.getD {}).action
  if action = some "security_scan" ∨ action = some "list_vms" then "discover" else "end"

/-- `route_after_discovery` (core/agent.py). -/
def route_after_discovery (s : AgentState) : String :=
  if (s.plan.getD {}).action = some "list_vms" then "end"
  else if s.target_vms ≠ [] then "execute" else "analysis"

/-- The entry-routing rule exactly as the specification words it, priority
order (a) send-notification, (b) re-plan, (c) start-cloning, (d) plan. -/
def entryRouterSpec (s : AgentState) : String :=
  if s.awaiting_acknowledgment ∧ strContains (pyLower s.user_query.asStr) "send email" then
    "send_notification"
  else if s.awaiting_acknowledgment then "supervisor"
  else if (match s.user_query with
           | .directive a _ => a == "initiate_cloning"
           | .text _ => false) then "start_cloning"
  else "supervisor"

/-- Environment of `supervisor_node`: the planner LLM call either raises
(`error e`) or returns a raw string together with the result of
`json.loads` on it (`none` = `JSONDecodeError`). -/
structure SupervisorEnv where
  planReply : Except String (String × Option Plan)

/-- `supervisor_node` (agents/supervisor.py): one planner call; empty reply,
unparsable reply and a raised exception each become an `error_log` entry. -/
def supervisor_node (env : SupervisorEnv) (_s : AgentState) : Delta × List ExtCall :=
  let m0 : List (String × String) := [("system", "Parsing user query to create a plan...")]
  match env.planReply with
  | .error e =>
      let msg := "Supervisor: An unexpected error occurred: " ++ e
      ({ error_log := [msg], messages := m0 ++ [("system", msg)] }, [.llmPlan])
  | .ok (raw, parsed) =>
      if raw = "" then
        ({ error_log := ["Supervisor: LLM returned an empty plan."], messages := m0 },
         [.llmPlan])
      else
        match parsed with
        | none =>
            let msg := "Supervisor: Failed to understand the plan from the AI. Please try rephrasing your query."
            ({ error_log := [msg], messages := m0 ++ [("system", msg)] }, [.llmPlan])
        | some p =>
            let done := "Plan created successfully. Action: '" ++ p.action.getD "N/A" ++ "'."
            ({ plan := some p, messages := m0 ++ [("system", done)] }, [.llmPlan])

/-- The inventory collaborator's behaviour: a `ConnectionError`, any other
exception, or a returned list of machines. -/
inductive InvReply where
  | connErr (e : String)
  | otherErr (e : String)
  | ok (vms : List VM)
deriving Repr, DecidableEq

structure DiscoveryEnv where
  inventory : InvReply

/-- Rendering of `json.dumps(filters)` for the search announcement. -/
def renderFilters (fs : List (String × String)) : String :=
  "\x7b" ++ String.intercalate ", " (fs.map fun kv => "\"" ++ kv.1 ++ "\": \"" ++ kv.2 ++ "\"") ++ "\x7d"

/-- `discovery_node` (agents/discovery.py): fetch the inventory once, keep
only `ACTIVE` machines, convert both exception classes into `error_log`
entries, and report an empty filtered list as a normal outcome. -/
def discovery_node (env : DiscoveryEnv) (s : AgentState) : Delta × List ExtCall :=
  match s.plan with
  | none =>
      let msg := "Discovery: No plan found in state. Cannot proceed."
      ({ error_log := [msg], messages := [("system", msg)] }, [])
  | some p =>
      let m1 : String × String :=
        ("system",
          if p.filters ≠ [] then
            "Searching for VMs with the following filters: " ++ renderFilters p.filters ++ "..."
          else "Searching for all VMs...")
      match env.inventory with
      | .connErr e =>
          let msg := "Discovery: Failed to connect to OpenStack. Please check credentials. Error: " ++ e
          ({ error_log := [msg], messages := [m1, ("system", msg)] }, [.listServers])
      | .otherErr e =>
          let msg := "Discovery: An unexpected error occurred: " ++ e
          ({ error_log := [msg], messages := [m1, ("system", msg)] }, [.listServers])
      | .ok vms =>
          if vms = [] then
            ({ target_vms := some [],
               messages := [m1, ("system", "No VMs found matching the criteria.")] },
             [.listServers])
          else
            let active := vms.filter (fun vm => vm.status == "ACTIVE")
            if active = [] then
              ({ target_vms := some [],
                 messages := [m1,
                   ("system", "Found " ++ toString vms.length ++
                     " VMs, but none are currently ACTIVE. No action will be taken.")] },
               [.listServers])
            else
              ({ target_vms := some active,
                 messages := [m1,
                   ("system", "Discovery complete. Found " ++ toString active.length ++
                     " ACTIVE VMs to target.")] },
               [.listServers])

/-- Environment of one `run_playbook` call (tools/ansible_executor.py):
whether the playbook file exists, what `ansible_runner.run` does (raise, or
return a run whose `status` is the given string), and whether the fetched
report file exists afterwards. -/
structure RunPBEnv where
  playbookExists : Bool
  runner : Except String String
  reportExists : Bool
deriving Repr

/-- The dict `run_playbook` returns. -/
structure PBResult where
  status : String
  report_path : Option String := none
  error : Option String := none
deriving Repr, DecidableEq

/-- `os.path.dirname`: everything before the final `/`. -/
def dirname (p : String) : String :=
  ⟨List.intercalate ['/'] (splitSlash p.data).dropLast⟩

/-- The path `run_playbook` expects the fetched report at. -/
def reportPathFor (playbook_path target_host : String) : String :=
  dirname playbook_path ++ "/reports/" ++ target_host ++ "_report.html"

/-- `run_playbook` (tools/ansible_executor.py): always returns a status
dict; every failure mode is folded into `{"status": "failed", "error": ...}`. -/
def run_playbook (env : RunPBEnv) (playbook_path target_host : String)
    (_ssh_user _ssh_pass : String) : PBResult :=
  if ¬ env.playbookExists then
    { status := "failed", error := some ("Playbook not found at path: " ++ playbook_path) }
  else
    match env.runner with
    | .error e => { status := "failed", error := some e }
    | .ok st =>
        if st = "successful" then
          if env.reportExists then
            { status := "successful",
              report_path := some (reportPathFor playbook_path target_host) }
          else
            { status := "failed", error := some "Report file not fetched by playbook." }
        else
          { status := "failed", error := some ("Ansible run failed with status: " ++ st) }

/-- Environment of `execution_node`: the runtime source directory (the
anchor of the computed playbook path), whether `os.path.exists` finds the
playbook, and each target's `run_playbook` environment, keyed by VM name. -/
structure ExecutionEnv where
  srcDir : String
  playbookFound : Bool
  perVm : String → RunPBEnv

/-- `_run_scan_on_vm` (agents/execution.py): skip a target with no address,
otherwise run the playbook off the event loop and tag the result.  Returns
the outcome, the progress messages it appended, and its collaborator call. -/
def run_scan_on_vm (env : ExecutionEnv) (playbook_path : String) (vm : VM) :
    Outcome × List (String × String) × List ExtCall :=
  if ¬ optTruthy vm.ip_address then
    ({ vm_name := vm.name, status := "skipped", error := some "No IP address" }, [], [])
  else
    let ip := vm.ip_address.getD ""
    let r := run_playbook (env.perVm vm.name) playbook_path ip "root" "stackmax"
    ({ vm_name := vm.name, status := r.status, report_path := r.report_path, error := r.error },
     [("system", "Starting OVAL scan on " ++ vm.name ++ " (" ++ ip ++ ")..."),
      ("system", "Scan completed for " ++ vm.name ++ ". Status: " ++ r.status ++ ".")],
     [.ansibleRun playbook_path ip])

/-- The name-prefix selection `execution_node` applies before fanning out. -/
def kafkaFilter (vms : List VM) : List VM :=
  vms.filter (fun vm => strStartsWith (pyLower vm.name) "kafka")

/-- Fan-in partition: the outcomes kept as successful reports. -/
def successfulReports (outcomes : List Outcome) : List Outcome :=
  outcomes.filter (fun r => r.status == "successful" && optTruthy r.report_path)

/-- Fan-in partition: the non-successful outcomes rendered as error lines. -/
def scanErrors (outcomes : List Outcome) : List String :=
  outcomes.filterMap (fun r =>
    if r.status ≠ "successful" then
      some ("Scan failed on " ++ r.vm_name ++ ": " ++ r.error.getD "Unknown error")
    else none)

/-- `execution_node` (agents/execution.py): select `kafka*` targets, locate
the playbook, fan out one scan per target, await them all, and partition the
outcomes into successful reports and error-log lines. -/
def execution_node (env : ExecutionEnv) (s : AgentState) : Delta × List ExtCall :=
  let target_vms := kafkaFilter s.target_vms
  if target_vms = [] then
    ({ messages := [("system", "No 'kafka' VMs found to scan. Skipping execution step.")] }, [])
  else
    let playbook_name := (s.plan.getD {}).playbook
    if ¬ optTruthy playbook_name then
      ({ error_log := ["Execution: No playbook specified."],
         messages := [("system", "Error: No playbook specified in the plan.")] }, [])
    else
      let name := playbook_name.getD ""
      let playbook_path := env.srcDir ++ "/playbooks/security/" ++ name
      if ¬ env.playbookFound then
        let msg := "Execution: Could not find playbook '" ++ name ++
          "'. Error: Playbook not found at calculated path: " ++ playbook_path
        ({ error_log := [msg], messages := [("system", msg)] }, [])
      else
        let runs := target_vms.map (run_scan_on_vm env playbook_path)
        let outcomes := runs.map (·.1)
        let perVmMsgs := runs.flatMap (fun t => t.2.1)
        let calls := runs.flatMap (fun t => t.2.2)
        let reports := successfulReports outcomes
        let errors := scanErrors outcomes
        ({ scan_results := reports,
           error_log := errors,
           messages :=
             ("system", "Beginning security scans on " ++ toString target_vms.length ++
               " VMs. This may take some time...") :: perVmMsgs ++
             [("system", "All scans complete. Successful reports: " ++ toString reports.length ++
               ". Failures: " ++ toString errors.length ++ ".")] },
         calls)

/-- The parsed structured summary: the only field the code reads back is
`overall_summary`. -/
structure SummaryJson where
  overall_summary : Option String := none
deriving Repr, DecidableEq

/-- Environment of `analysis_node`: reading and HTML-parsing one report file
(an exception while reading is `error`), the CSV write, the four summarizer
LLM calls (the structured one bundles `json.loads` of its reply: `error`
covers both a raised call and an unparsable reply), and the recipient list
from the notification config (`error` = an exception while loading it). -/
structure AnalysisEnv where
  readParse : String → Except String (List Finding)
  csvWrite : Except String Unit
  structuredReply : Except String SummaryJson
  bodyReply : Except String String
  uiReply : Except String String
  subjectReply : Except String String
  recipients : Except String (List String)

/-- Python's repr of a list of strings, as interpolated into f-strings. -/
def renderPyList (xs : List String) : String :=
  "[" ++ String.intercalate ", " (xs.map fun x => "'" ++ x ++ "'") ++ "]"

/-- The per-report loop of `analysis_node`: returns the `all_vulnerabilities`
mapping (vm name → finding titles, only names with at least one finding),
the CSV rows, and the warning messages for unreadable reports. -/
def collectVulns (env : AnalysisEnv) :
    List Outcome → List (String × List String) × List (List String) × List (String × String)
  | [] => ([], [], [])
  | r :: rest =>
      let (vulns, rows, msgs) := collectVulns env rest
      match env.readParse (r.report_path.getD "") with
      | .error _ =>
          (vulns, rows, ("system", "⚠️ Error reading report for " ++ r.vm_name ++ ".") :: msgs)
      | .ok found =>
          if found ≠ [] then
            ((r.vm_name, found.map (·.title)) :: vulns,
             found.map (fun v => [r.vm_name, v.fid, v.title, v.fclass, v.references]) ++ rows,
             msgs)
          else (vulns, rows, msgs)

/-- The single error string the summarization phase's `except` branch logs. -/
def analysisErrMsg (e : String) : String :=
  "Analysis: An unexpected error occurred during LLM summary/notification: " ++ e

/-- `analysis_node` (agents/analysis.py): parse every successful report,
short-circuit when no vulnerability was found, write the CSV, run the four
summarizer calls in order (structured summary first), and send the email
itself when recipients are configured. -/
def analysis_node (env : AnalysisEnv) (s : AgentState) : Delta × List ExtCall :=
  if s.scan_results = [] then
    let msg := "No scan reports were generated. Skipping analysis."
    ({ final_summary := some msg, messages := [("system", msg)] }, [])
  else
    let m0 : String × String :=
      ("system", "🔬 Analyzing " ++ toString s.scan_results.length ++ " scan reports...")
    let (all_vulnerabilities, _csv_data, parseMsgs) := collectVulns env s.scan_results
    if all_vulnerabilities = [] then
      let msg := "✅ Analysis complete. No critical vulnerabilities found in any of the reports."
      ({ final_summary := some msg, messages := m0 :: parseMsgs ++ [("system", msg)] }, [])
    else
      let csv_report_path :=
        dirname ((s.scan_results.headD default).report_path.getD "") ++ "/vulnerability_summary.csv"
      let csvMsg : String × String :=
        match env.csvWrite with
        | .ok _ => ("system", "📄 Vulnerability summary saved to: " ++ csv_report_path)
        | .error e => ("system", "⚠️ Failed to create CSV report: " ++ e)
      let pre := m0 :: parseMsgs ++ [csvMsg]
      let errDelta := fun (e : String) =>
        ({ error_log := [analysisErrMsg e],
           messages := pre ++ [("system", analysisErrMsg e)] } : Delta)
      match env.structuredReply with
      | .error e => (errDelta e, [.llmStructuredSummary])
      | .ok summary_json =>
          match env.bodyReply with
          | .error e => (errDelta e, [.llmStructuredSummary, .llmEmailBody])
          | .ok email_body =>
              match env.uiReply with
              | .error e => (errDelta e, [.llmStructuredSummary, .llmEmailBody, .llmUiSummary])
              | .ok ui_summary =>
                  let _subject_seed := summary_json.overall_summary.getD "Scan Complete"
                  match env.subjectReply with
                  | .error e =>
                      (errDelta e,
                       [.llmStructuredSummary, .llmEmailBody, .llmUiSummary, .llmEmailSubject])
                  | .ok email_subject =>
                      let llmCalls : List ExtCall :=
                        [.llmStructuredSummary, .llmEmailBody, .llmUiSummary, .llmEmailSubject]
                      match env.recipients with
                      | .error e => (errDelta e, llmCalls)
                      | .ok recips =>
                          if recips ≠ [] then
                            ({ final_summary := some ui_summary,
                               email_sent := some true,
                               messages := pre ++
                                 [("system", "✉️ Sending notification email to: " ++
                                   renderPyList recips)] },
                             llmCalls ++
                               [.sendEmail recips email_subject email_body (some csv_report_path)])
                          else
                            ({ final_summary := some ui_summary,
                               email_sent := some false,
                               messages := pre }, llmCalls)

/-- Environment of `notification_node`: the recipient list from the config
(`error` = an exception raised inside the `try` block while resolving or
sending), and the ignored boolean `send_email` returns. -/
structure NotificationEnv where
  recipients : Except String (List String)
  sendResult : Bool

/-- `notification_node` (core/agent.py): require a populated draft, resolve
recipients, send at most one email, clear the acknowledgment flag. -/
def notification_node (env : NotificationEnv) (s : AgentState) : Delta × List ExtCall :=
  let subject := s.draft_email_subject
  let body := s.draft_email_body
  if ¬ (optTruthy subject && optTruthy body) then
    let msg := "Notification Error: Draft email subject or body not found in state."
    ({ error_log := [msg], messages := [("system", msg)] }, [])
  else
    match env.recipients with
    | .error e =>
        let msg := "Failed to send notification email. Error: " ++ e
        ({ error_log := [msg], messages := [("system", msg)] }, [])
    | .ok recipients =>
        if recipients ≠ [] then
          ({ awaiting_acknowledgment := some false, email_sent := some true,
             messages := [("system", "✅ Approval received. Sending notification to: " ++
               renderPyList recipients)] },
           [.sendEmail recipients (subject.getD "") (body.getD "") s.draft_attachment_path])
        else
          ({ awaiting_acknowledgment := some false, email_sent := some false,
             messages := [("system", "⚠️ No recipients found in config. Skipping email.")] },
           [])

/-- Environment of `cloning_node`: the configured network-name marker, the
isolated-network creation (raise or network id), and the per-VM snapshot and
clone calls, keyed by VM name. -/
structure CloningEnv where
  netMarker : String
  networkReply : Except String String
  snapshotReply : String → Except String String
  cloneReply : String → Except String Unit

/-- The per-VM phase of `cloning_node`: snapshot then launch, each failure
caught and logged per target without cancelling siblings. -/
def clone_vm (env : CloningEnv) (network_id reportTag : String) (vm : VM) :
    List (String × String) × List ExtCall :=
  let snapshot_name := vm.name ++ "-snapshot-" ++ reportTag
  match env.snapshotReply vm.name with
  | .error e =>
      ([("system", "Creating snapshot for " ++ vm.name ++ "..."),
        ("system", "❌ Failed to clone " ++ vm.name ++ ". Error: " ++ e)],
       [.createSnapshot vm.vid snapshot_name])
  | .ok snapshot_id =>
      let clone_name := vm.name ++ "-clone"
      match env.cloneReply vm.name with
      | .error e =>
          ([("system", "Creating snapshot for " ++ vm.name ++ "..."),
            ("system", "✅ Snapshot for " ++ vm.name ++ " created."),
            ("system", "Launching clone of " ++ vm.name ++ " in isolated network..."),
            ("system", "❌ Failed to clone " ++ vm.name ++ ". Error: " ++ e)],
           [.createSnapshot vm.vid snapshot_name,
            .createFromSnapshot clone_name snapshot_id network_id])
      | .ok _ =>
          ([("system", "Creating snapshot for " ++ vm.name ++ "..."),
            ("system", "✅ Snapshot for " ++ vm.name ++ " created."),
            ("system", "Launching clone of " ++ vm.name ++ " in isolated network..."),
            ("system", "✅ Clone of " ++ vm.name ++ " launched successfully.")],
           [.createSnapshot vm.vid snapshot_name,
            .createFromSnapshot clone_name snapshot_id network_id])

/-- `cloning_node` (core/agent.py): refuse when no vulnerable VMs are in
state, otherwise create one isolated network and clone each target. -/
def cloning_node (env : CloningEnv) (s : AgentState) : Delta × List ExtCall :=
  let vms_to_clone := s.vulnerable_vms
  if vms_to_clone = [] then
    let msg := "Cloning Error: List of vulnerable VMs not found in state."
    ({ error_log := [msg], messages := [("system", msg)] }, [])
  else
    let reportTag := strTake (s.report_id.getD "") 8
    let network_name := env.netMarker ++ "-" ++ reportTag
    match env.networkReply with
    | .error e =>
        let msg := "A critical error occurred during the cloning process: " ++ e
        ({ error_log := [msg],
           messages := [("system", "Creating isolated network: " ++ network_name ++ "..."),
             ("system", msg)] },
         [.createNetwork network_name])
    | .ok network_id =>
        let perVm := vms_to_clone.map (clone_vm env network_id reportTag)
        ({ final_summary := some "Forensic cloning process complete.",
           messages :=
             ("system", "Creating isolated network: " ++ network_name ++ "...") ::
             ("system", "✅ Network '" ++ network_name ++ "' created successfully.") ::
             perVm.flatMap (·.1) ++ [("system", "Forensic cloning process complete.")] },
         .createNetwork network_name :: perVm.flatMap (·.2))

/-- One engine tick: a node together with the collaborator environment its
execution observed. -/
inductive Step where
  | entry
  | supervisor (env : SupervisorEnv)
  | discovery (env : DiscoveryEnv)
  | execution (env : ExecutionEnv)
  | analysis (env : AnalysisEnv)
  | notification (env : NotificationEnv)
  | cloning (env : CloningEnv)

/-- The delta a step's node returns against a given state. -/
def stepDelta : Step → AgentState → Delta
  | .entry, s => (entry_router_node s).1
  | .supervisor env, s => (supervisor_node env s).1
  | .discovery env, s => (discovery_node env s).1
  | .execution env, s => (execution_node env s).1
  | .analysis env, s => (analysis_node env s).1
  | .notification env, s => (notification_node env s).1
  | .cloning env, s => (cloning_node env s).1

/-- One engine tick: execute the node and merge its delta. -/
def runStep (s : AgentState) (st : Step) : AgentState :=
  applyDelta s (stepDelta st s)

/-- A sequence of engine ticks. -/
def runSteps (s : AgentState) (steps : List Step) : AgentState :=
  steps.foldl runStep s

/-- The fresh state a new thread starts from: only `user_query` is set, the
append-only channels are empty, everything optional is absent. -/
def initState (q : UserQuery) : AgentState :=
  { user_query := q }

example :
    (entry_router_node { initState (.text "please send email now") with
      awaiting_acknowledgment := true }).1.next_node = some "send_notification" := by decide

example :
    (entry_router_node { initState (.text "what's up") with
      awaiting_acknowledgment := true }).1.next_node = some "supervisor" := by decide

example :
    (entry_router_node (initState (.directive "initiate_cloning" "X"))).1.next_node =
      some "start_cloning" := by decide

/-- C2: for every state, the entry router decides by the spec's priority
order — (a) parked and the text contains "send email" (case-insensitively)
chooses the notification node, (b) parked otherwise re-plans, (c) a
structured directive with action "initiate_cloning" starts cloning, (d)
everything else plans. -/
theorem C2_entry_router_priority (s : AgentState) :
    (entry_router_node s).1.next_node = some (entryRouterSpec s) := by
  rcases hq : s.user_query with t | ⟨a, r⟩ <;>
    cases hb : s.awaiting_acknowledgment <;>
    simp [entry_router_node, entryRouterSpec, hq, hb]

/-- C10: `run_playbook` always returns a status dict — "successful" or
"failed", never an exception — with an error message on every failure mode
(missing playbook, raised runner, unsuccessful run, missing fetched report)
and a report path exactly when the status is "successful". -/
theorem C10_run_playbook_total (env : RunPBEnv)
    (playbook_path target_host ssh_user ssh_pass : String) :
    let r := run_playbook env playbook_path target_host ssh_user ssh_pass
    (r.status = "successful" ∨ r.status = "failed") ∧
    (r.status = "successful" →
      r.report_path = some (reportPathFor playbook_path target_host)) ∧
    (r.status = "failed" → r.error.isSome) ∧
    (env.playbookExists = false →
      r = { status := "failed",
            error := some ("Playbook not found at path: " ++ playbook_path) }) ∧
    (∀ e, env.playbookExists = true → env.runner = .error e →
      r = { status := "failed", error := some e }) ∧
    (∀ st, env.playbookExists = true → env.runner = .ok st → st ≠ "successful" →
      r = { status := "failed",
            error := some ("Ansible run failed with status: " ++ st) }) ∧
    (env.playbookExists = true → env.runner = .ok "successful" →
      env.reportExists = false →
      r = { status := "failed", error := some "Report file not fetched by playbook." }) := by
  rcases env with ⟨pb, runner, rep⟩
  cases pb
  · rcases runner with e | st <;> simp [run_playbook]
  · rcases runner with e | st
    · simp [run_playbook]
    · by_cases h : st = "successful" <;> cases rep <;> simp [run_playbook, h]

def c10Env : RunPBEnv :=
  { playbookExists := true, runner := .ok "successful", reportExists := true }

theorem C10_run_playbook_total_witness :
    let r := run_playbook c10Env "/src/playbooks/security/openscap_scan.yml" "10.0.0.5"
      "root" "stackmax"
    (r.status = "successful" ∨ r.status = "failed") ∧
    (r.status = "successful" →
      r.report_path =
        some (reportPathFor "/src/playbooks/security/openscap_scan.yml" "10.0.0.5")) ∧
    (r.status = "failed" → r.error.isSome) ∧
    (c10Env.playbookExists = false →
      r = { status := "failed",
            error := some ("Playbook not found at path: " ++
              "/src/playbooks/security/openscap_scan.yml") }) ∧
    (∀ e, c10Env.playbookExists = true → c10Env.runner = .error e →
      r = { status := "failed", error := some e }) ∧
    (∀ st, c10Env.playbookExists = true → c10Env.runner = .ok st → st ≠ "successful" →
      r = { status := "failed",
            error := some ("Ansible run failed with status: " ++ st) }) ∧
    (c10Env.playbookExists = true → c10Env.runner = .ok "successful" →
      c10Env.reportExists = false →
      r = { status := "failed", error := some "Report file not fetched by playbook." }) :=
  C10_run_playbook_total c10Env "/src/playbooks/security/openscap_scan.yml" "10.0.0.5"
    "root" "stackmax"

lemma reportPathFor_ne_empty (p h : String) : reportPathFor p h ≠ "" := by
  intro hc
  have := congrArg String.data hc
  simp [reportPathFor, String.data_append] at this

/-- Every outcome `_run_scan_on_vm` can produce is either successful with a
truthy report path, or non-successful. -/
lemma run_scan_on_vm_dichotomy (env : ExecutionEnv) (path : String) (vm : VM) :
    (run_scan_on_vm env path vm).1.status = "successful" →
      optTruthy (run_scan_on_vm env path vm).1.report_path = true := by
  unfold run_scan_on_vm run_playbook
  rcases henv : env.perVm vm.name with ⟨pb, runner, rep⟩
  by_cases hip : optTruthy vm.ip_address <;> simp [hip, henv]
  cases pb <;> rcases runner with e | st <;> simp
  by_cases h : st = "successful" <;> cases rep <;>
    simp [h, optTruthy, reportPathFor_ne_empty]

/-- An outcome list in which success implies a truthy report path is split
without loss by the fan-in: kept reports plus rendered errors cover it. -/
lemma successful_add_errors_length :
    ∀ outcomes : List Outcome,
    (∀ o ∈ outcomes, o.status = "successful" → optTruthy o.report_path = true) →
    (successfulReports outcomes).length + (scanErrors outcomes).length = outcomes.length := by
  intro outcomes
  induction outcomes with
  | nil => intro _; simp [successfulReports, scanErrors]
  | cons o rest ih =>
      intro h
      have hr := ih (fun x hx => h x (List.mem_cons_of_mem _ hx))
      simp only [successfulReports, scanErrors, ne_eq, ite_not] at hr ⊢
      rw [List.filter_cons, List.filterMap_cons]
      by_cases hs : o.status = "successful"
      · have ht := h o (List.mem_cons_self o rest) hs
        simp [hs, ht]
        omega
      · simp [hs]
        omega

/-- C3: with the playbook present, the execution fan-in produces one outcome
per selected target and partitions them — outcomes that are successful with
a report reference become `scan_results`, every other outcome is rendered as
a "Scan failed on (target): (reason)" error-log line, and the two parts
together account for every selected target. -/
theorem C3_execution_fanin (env : ExecutionEnv) (s : AgentState)
    (hsel : kafkaFilter s.target_vms ≠ [])
    (hpb : optTruthy (s.plan.getD {}).playbook = true)
    (hfound : env.playbookFound = true) :
    let playbook_path :=
      env.srcDir ++ "/playbooks/security/" ++ ((s.plan.getD {}).playbook.getD "")
    let outcomes :=
      (kafkaFilter s.target_vms).map (fun vm => (run_scan_on_vm env playbook_path vm).1)
    let d := (execution_node env s).1
    outcomes.length = (kafkaFilter s.target_vms).length ∧
    d.scan_results = successfulReports outcomes ∧
    d.error_log = scanErrors outcomes ∧
    (∀ e ∈ d.error_log, ∃ o ∈ outcomes, o.status ≠ "successful" ∧
        e = "Scan failed on " ++ o.vm_name ++ ": " ++ o.error.getD "Unknown error") ∧
    d.scan_results.length + d.error_log.length = (kafkaFilter s.target_vms).length := by
  intro playbook_path outcomes d
  have h1 : d.scan_results = successfulReports outcomes := by
    show (execution_node env s).1.scan_results = _
    unfold execution_node
    simp only [hsel, hpb, hfound]
    simp [outcomes, playbook_path, List.map_map]
    rfl
  have h2 : d.error_log = scanErrors outcomes := by
    show (execution_node env s).1.error_log = _
    unfold execution_node
    simp only [hsel, hpb, hfound]
    simp [outcomes, playbook_path, List.map_map]
    rfl
  have hlen : outcomes.length = (kafkaFilter s.target_vms).length := by
    simp [outcomes]
  have hdich : ∀ o ∈ outcomes, o.status = "successful" → optTruthy o.report_path = true := by
    intro o ho hs
    simp only [outcomes, List.mem_map] at ho
    obtain ⟨vm, _, hvm⟩ := ho
    subst hvm
    exact run_scan_on_vm_dichotomy env playbook_path vm hs
  refine ⟨hlen, h1, h2, ?_, ?_⟩
  · rw [h2]
    intro e he
    simp only [scanErrors, List.mem_filterMap] at he
    obtain ⟨o, ho, hcond⟩ := he
    by_cases hs : o.status = "successful"
    · simp [hs] at hcond
    · refine ⟨o, ho, hs, ?_⟩
      simp [hs] at hcond
      exact hcond.symm
  · rw [h1, h2, successful_add_errors_length outcomes hdich, hlen]

def c3Vm (n ip : String) : VM :=
  { vid := n, name := n, ip_address := some ip, status := "ACTIVE" }

def c3Env : ExecutionEnv :=
  { srcDir := "/src"
    playbookFound := true
    perVm := fun name =>
      if name = "kafka-2" then
        { playbookExists := true, runner := .error "boom", reportExists := true }
      else
        { playbookExists := true, runner := .ok "successful", reportExists := true } }

def c3State : AgentState :=
  { user_query := .text "scan the kafka fleet"
    plan := some { action := some "security_scan", playbook := some "openscap_scan.yml" }
    target_vms :=
      [c3Vm "kafka-1" "10.0.0.1", c3Vm "kafka-2" "10.0.0.2", c3Vm "kafka-3" "10.0.0.3"] }

theorem C3_execution_fanin_witness :
    (let playbook_path :=
      c3Env.srcDir ++ "/playbooks/security/" ++ ((c3State.plan.getD {}).playbook.getD "")
    let outcomes :=
      (kafkaFilter c3State.target_vms).map
        (fun vm => (run_scan_on_vm c3Env playbook_path vm).1)
    let d := (execution_node c3Env c3State).1
    outcomes.length = (kafkaFilter c3State.target_vms).length ∧
    d.scan_results = successfulReports outcomes ∧
    d.error_log = scanErrors outcomes ∧
    (∀ e ∈ d.error_log, ∃ o ∈ outcomes, o.status ≠ "successful" ∧
        e = "Scan failed on " ++ o.vm_name ++ ": " ++ o.error.getD "Unknown error") ∧
    d.scan_results.length + d.error_log.length = (kafkaFilter c3State.target_vms).length) ∧
    (execution_node c3Env c3State).1.scan_results.map Outcome.vm_name = ["kafka-1", "kafka-3"] ∧
    (execution_node c3Env c3State).1.scan_results.map Outcome.status =
      ["successful", "successful"] ∧
    (execution_node c3Env c3State).1.error_log = ["Scan failed on kafka-2: boom"] ∧
    (execution_node c3Env c3State).1.scan_results.length +
      (execution_node c3Env c3State).1.error_log.length = 3 :=
  ⟨C3_execution_fanin c3Env c3State (by decide) (by decide) rfl, by decide⟩

/-- C6: the discovery step never raises — a connectivity failure becomes a
single error-log entry after exactly one inventory call (no retry), a
returned list is filtered to exactly the `ACTIVE` machines, dropped machines
are accompanied by a system log line reporting the count, and an empty
filtered result is an empty `target_vms` list with no error entry. -/
theorem C6_discovery_filter (env : DiscoveryEnv) (s : AgentState) (p : Plan)
    (hp : s.plan = some p) :
    let d := (discovery_node env s).1
    let calls := (discovery_node env s).2
    (∀ e, env.inventory = .connErr e →
        d.error_log =
          ["Discovery: Failed to connect to OpenStack. Please check credentials. Error: " ++ e] ∧
        d.target_vms = none ∧ calls = [.listServers] ∧
        ("system",
          "Discovery: Failed to connect to OpenStack. Please check credentials. Error: " ++ e)
          ∈ d.messages) ∧
    (∀ vms, env.inventory = .ok vms →
        d.error_log = [] ∧
        d.target_vms = some (vms.filter (fun vm => vm.status == "ACTIVE")) ∧
        calls = [.listServers] ∧
        (vms ≠ [] → vms.filter (fun vm => vm.status == "ACTIVE") = [] →
          ("system", "Found " ++ toString vms.length ++
            " VMs, but none are currently ACTIVE. No action will be taken.") ∈ d.messages) ∧
        (vms.filter (fun vm => vm.status == "ACTIVE") ≠ [] →
          ("system", "Discovery complete. Found " ++
            toString (vms.filter (fun vm => vm.status == "ACTIVE")).length ++
            " ACTIVE VMs to target.") ∈ d.messages)) := by
  intro d calls
  constructor
  · intro e he
    simp [d, calls, discovery_node, hp, he]
  · intro vms hv
    by_cases h0 : vms = []
    · subst h0
      simp [d, calls, discovery_node, hp, hv]
    · by_cases ha : vms.filter (fun vm => vm.status == "ACTIVE") = []
      · simp [d, calls, discovery_node, hp, hv, h0, ha]
      · simp [d, calls, discovery_node, hp, hv, h0, ha]

def c6Env : DiscoveryEnv :=
  { inventory := .ok
      [{ vid := "1", name := "kafka-1", ip_address := some "10.0.0.1", status := "ACTIVE" },
       { vid := "2", name := "kafka-2", ip_address := some "10.0.0.2", status := "SHUTOFF" },
       { vid := "3", name := "db-1", ip_address := none, status := "ERROR" }] }

def c6State : AgentState :=
  { user_query := .text "scan everything"
    plan := some { action := some "security_scan", playbook := some "openscap_scan.yml" } }

theorem C6_discovery_filter_witness :
    (let d := (discovery_node c6Env c6State).1
    let calls := (discovery_node c6Env c6State).2
    (∀ e, c6Env.inventory = .connErr e →
        d.error_log =
          ["Discovery: Failed to connect to OpenStack. Please check credentials. Error: " ++ e] ∧
        d.target_vms = none ∧ calls = [.listServers] ∧
        ("system",
          "Discovery: Failed to connect to OpenStack. Please check credentials. Error: " ++ e)
          ∈ d.messages) ∧
    (∀ vms, c6Env.inventory = .ok vms →
        d.error_log = [] ∧
        d.target_vms = some (vms.filter (fun vm => vm.status == "ACTIVE")) ∧
        calls = [.listServers] ∧
        (vms ≠ [] → vms.filter (fun vm => vm.status == "ACTIVE") = [] →
          ("system", "Found " ++ toString vms.length ++
            " VMs, but none are currently ACTIVE. No action will be taken.") ∈ d.messages) ∧
        (vms.filter (fun vm => vm.status == "ACTIVE") ≠ [] →
          ("system", "Discovery complete. Found " ++
            toString (vms.filter (fun vm => vm.status == "ACTIVE")).length ++
            " ACTIVE VMs to target.") ∈ d.messages))) ∧
    (discovery_node c6Env c6State).1.target_vms =
      some [{ vid := "1", name := "kafka-1", ip_address := some "10.0.0.1",
              status := "ACTIVE" }] ∧
    (discovery_node c6Env c6State).1.error_log = [] ∧
    ("system", "Discovery complete. Found 1 ACTIVE VMs to target.")
      ∈ (discovery_node c6Env c6State).1.messages :=
  ⟨C6_discovery_filter c6Env c6State
      { action := some "security_scan", playbook := some "openscap_scan.yml" } rfl,
   by decide⟩

/-- C8: with a populated draft, the notification step resolves recipients
from configuration — an empty list is a warning and a false sent flag with
no error entry; a non-empty list is exactly one email-transport call with
the draft's subject, body and attachment, a cleared acknowledgment flag and
a true sent flag.  Without a populated draft it is an error entry instead. -/
theorem C8_notification_send (env : NotificationEnv) (s : AgentState) :
    let d := (notification_node env s).1
    let calls := (notification_node env s).2
    ((optTruthy s.draft_email_subject && optTruthy s.draft_email_body) = false →
        d.error_log = ["Notification Error: Draft email subject or body not found in state."] ∧
        calls = []) ∧
    ((optTruthy s.draft_email_subject && optTruthy s.draft_email_body) = true →
      ∀ r, env.recipients = .ok r →
        (r = [] →
          d.email_sent = some false ∧ d.error_log = [] ∧ calls = [] ∧
          d.awaiting_acknowledgment = some false ∧
          ("system", "⚠️ No recipients found in config. Skipping email.") ∈ d.messages) ∧
        (r ≠ [] →
          calls = [.sendEmail r (s.draft_email_subject.getD "") (s.draft_email_body.getD "")
            s.draft_attachment_path] ∧
          d.awaiting_acknowledgment = some false ∧ d.email_sent = some true ∧
          d.error_log = [])) := by
  intro d calls
  constructor
  · intro hmiss
    simp [d, calls, notification_node, hmiss]
  · intro hdraft r hr
    constructor
    · intro h0
      subst h0
      simp [d, calls, notification_node, hdraft, hr]
    · intro h0
      simp [d, calls, notification_node, hdraft, hr, h0]

def c8Env : NotificationEnv :=
  { recipients := .ok ["manager@example.com"], sendResult := true }

def c8State : AgentState :=
  { user_query := .text "send email"
    awaiting_acknowledgment := true
    draft_email_subject := some "Security scan findings"
    draft_email_body := some "Findings are attached."
    draft_attachment_path := some "/reports/vulnerability_summary.csv" }

theorem C8_notification_send_witness :
    (let d := (notification_node c8Env c8State).1
    let calls := (notification_node c8Env c8State).2
    ((optTruthy c8State.draft_email_subject && optTruthy c8State.draft_email_body) = false →
        d.error_log = ["Notification Error: Draft email subject or body not found in state."] ∧
        calls = []) ∧
    ((optTruthy c8State.draft_email_subject && optTruthy c8State.draft_email_body) = true →
      ∀ r, c8Env.recipients = .ok r →
        (r = [] →
          d.email_sent = some false ∧ d.error_log = [] ∧ calls = [] ∧
          d.awaiting_acknowledgment = some false ∧
          ("system", "⚠️ No recipients found in config. Skipping email.") ∈ d.messages) ∧
        (r ≠ [] →
          calls = [.sendEmail r (c8State.draft_email_subject.getD "")
            (c8State.draft_email_body.getD "") c8State.draft_attachment_path] ∧
          d.awaiting_acknowledgment = some false ∧ d.email_sent = some true ∧
          d.error_log = []))) ∧
    (notification_node c8Env c8State).2 =
      [.sendEmail ["manager@example.com"] "Security scan findings" "Findings are attached."
        (some "/reports/vulnerability_summary.csv")] ∧
    (notification_node c8Env c8State).1.awaiting_acknowledgment = some false ∧
    (notification_node c8Env c8State).1.email_sent = some true :=
  ⟨C8_notification_send c8Env c8State, by decide⟩

/-- When every report parses to zero findings, the per-report loop collects
nothing and emits no warnings. -/
lemma collectVulns_all_empty (env : AnalysisEnv) :
    ∀ rs : List Outcome,
    (∀ r ∈ rs, env.readParse (r.report_path.getD "") = .ok []) →
    collectVulns env rs = ([], [], []) := by
  intro rs
  induction rs with
  | nil => intro _; rfl
  | cons r rest ih =>
      intro h
      have hr := ih (fun x hx => h x (List.mem_cons_of_mem _ hx))
      have hhead := h r (List.mem_cons_self r rest)
      simp [collectVulns, hr, hhead]

/-- C5: when the analysis step parses all reports and finds zero findings,
it short-circuits — the returned summary is the "no critical
vulnerabilities" message, the acknowledgment flag and the draft fields are
untouched, no error is logged, and no summarizer or email call is made. -/
theorem C5_empty_findings_short_circuit (env : AnalysisEnv) (s : AgentState)
    (hne : s.scan_results ≠ [])
    (hall : ∀ r ∈ s.scan_results, env.readParse (r.report_path.getD "") = .ok []) :
    let d := (analysis_node env s).1
    let calls := (analysis_node env s).2
    d.final_summary =
      some "✅ Analysis complete. No critical vulnerabilities found in any of the reports." ∧
    d.awaiting_acknowledgment = none ∧
    d.draft_email_subject = none ∧ d.draft_email_body = none ∧
    d.draft_attachment_path = none ∧
    d.error_log = [] ∧ d.email_sent = none ∧ calls = [] ∧
    ∀ s0 : AgentState, (applyDelta s0 d).awaiting_acknowledgment = s0.awaiting_acknowledgment := by
  intro d calls
  have hcv := collectVulns_all_empty env s.scan_results hall
  refine ⟨?_, ?_, ?_, ?_, ?_, ?_, ?_, ?_, ?_⟩ <;>
    simp [d, calls, analysis_node, hne, hcv, applyDelta]

def c5Env : AnalysisEnv :=
  { readParse := fun _ => .ok []
    csvWrite := .ok ()
    structuredReply := .ok { overall_summary := some "clean" }
    bodyReply := .ok "body"
    uiReply := .ok "ui"
    subjectReply := .ok "subject"
    recipients := .ok ["manager@example.com"] }

def c5State : AgentState :=
  { user_query := .text "run a security scan"
    scan_results :=
      [{ vm_name := "kafka-1", status := "successful",
         report_path := some "/src/playbooks/security/reports/10.0.0.1_report.html" },
       { vm_name := "kafka-2", status := "successful",
         report_path := some "/src/playbooks/security/reports/10.0.0.2_report.html" }] }

theorem C5_empty_findings_short_circuit_witness :
    (let d := (analysis_node c5Env c5State).1
    let calls := (analysis_node c5Env c5State).2
    d.final_summary =
      some "✅ Analysis complete. No critical vulnerabilities found in any of the reports." ∧
    d.awaiting_acknowledgment = none ∧
    d.draft_email_subject = none ∧ d.draft_email_body = none ∧
    d.draft_attachment_path = none ∧
    d.error_log = [] ∧ d.email_sent = none ∧ calls = [] ∧
    ∀ s0 : AgentState,
      (applyDelta s0 d).awaiting_acknowledgment = s0.awaiting_acknowledgment) ∧
    c5State.scan_results ≠ [] :=
  ⟨C5_empty_findings_short_circuit c5Env c5State (by decide) (fun _ _ => rfl), by decide⟩

/-- C7: in the summarization phase the structured JSON summary is produced
and parsed first — the call trace always begins with it — and a failure at
any of the four summarizer calls stops the remaining ones, yields exactly
one error-log entry, and exposes no partial draft in the returned delta. -/
theorem C7_summarizer_first_and_abort (env : AnalysisEnv) (s : AgentState)
    (hne : s.scan_results ≠ [])
    (hv : (collectVulns env s.scan_results).1 ≠ []) :
    let d := (analysis_node env s).1
    let calls := (analysis_node env s).2
    calls.head? = some ExtCall.llmStructuredSummary ∧
    (∀ e, env.structuredReply = .error e →
        calls = [.llmStructuredSummary] ∧
        d.error_log = [analysisErrMsg e] ∧
        d.final_summary = none ∧ d.email_sent = none ∧
        d.draft_email_subject = none ∧ d.draft_email_body = none) ∧
    (∀ sj e, env.structuredReply = .ok sj → env.bodyReply = .error e →
        calls = [.llmStructuredSummary, .llmEmailBody] ∧
        d.error_log = [analysisErrMsg e] ∧
        d.final_summary = none ∧ d.email_sent = none ∧
        d.draft_email_subject = none ∧ d.draft_email_body = none) ∧
    (∀ sj b e, env.structuredReply = .ok sj → env.bodyReply = .ok b →
        env.uiReply = .error e →
        calls = [.llmStructuredSummary, .llmEmailBody, .llmUiSummary] ∧
        d.error_log = [analysisErrMsg e] ∧
        d.final_summary = none ∧ d.email_sent = none ∧
        d.draft_email_subject = none ∧ d.draft_email_body = none) ∧
    (∀ sj b u e, env.structuredReply = .ok sj → env.bodyReply = .ok b →
        env.uiReply = .ok u → env.subjectReply = .error e →
        calls = [.llmStructuredSummary, .llmEmailBody, .llmUiSummary, .llmEmailSubject] ∧
        d.error_log = [analysisErrMsg e] ∧
        d.final_summary = none ∧ d.email_sent = none ∧
        d.draft_email_subject = none ∧ d.draft_email_body = none) := by
  intro d calls
  rcases hcv : collectVulns env s.scan_results with ⟨vulns, rows, msgs⟩
  rw [hcv] at hv
  simp only at hv
  refine ⟨?_, ?_, ?_, ?_, ?_⟩
  · simp only [calls, analysis_node, hne, hcv, if_neg, hv]
    rcases h1 : env.structuredReply with e | sj
    · simp [hne, hv, h1]
    · rcases h2 : env.bodyReply with e | b
      · simp [hne, hv, h2]
      · rcases h3 : env.uiReply with e | u
        · simp [hne, hv, h3]
        · rcases h4 : env.subjectReply with e | sub
          · simp [hne, hv, h4]
          · rcases h5 : env.recipients with e | r
            · simp [hne, hv, h5]
            · by_cases h6 : r = [] <;> simp [hne, hv, h5, h6]
  · intro e h1
    simp [d, calls, analysis_node, hne, hcv, hv, h1]
  · intro sj e h1 h2
    simp [d, calls, analysis_node, hne, hcv, hv, h1, h2]
  · intro sj b e h1 h2 h3
    simp [d, calls, analysis_node, hne, hcv, hv, h1, h2, h3]
  · intro sj b u e h1 h2 h3 h4
    simp [d, calls, analysis_node, hne, hcv, hv, h1, h2, h3, h4]

def c7Finding : Finding :=
  { fid := "oval:com.ubuntu:def:100", fclass := "vulnerability",
    references := "CVE-2024-0001", title := "Kernel out-of-bounds write" }

def c7Env : AnalysisEnv :=
  { readParse := fun _ => .ok [c7Finding]
    csvWrite := .ok ()
    structuredReply := .ok { overall_summary := some "one critical issue" }
    bodyReply := .error "rate limited"
    uiReply := .ok "ui"
    subjectReply := .ok "subject"
    recipients := .ok ["manager@example.com"] }

def c7State : AgentState :=
  { user_query := .text "run a security scan"
    scan_results :=
      [{ vm_name := "kafka-1", status := "successful",
         report_path := some "/src/playbooks/security/reports/10.0.0.1_report.html" }] }

theorem C7_summarizer_first_and_abort_witness :
    (let d := (analysis_node c7Env c7State).1
    let calls := (analysis_node c7Env c7State).2
    calls.head? = some ExtCall.llmStructuredSummary ∧
    (∀ e, c7Env.structuredReply = .error e →
        calls = [.llmStructuredSummary] ∧
        d.error_log = [analysisErrMsg e] ∧
        d.final_summary = none ∧ d.email_sent = none ∧
        d.draft_email_subject = none ∧ d.draft_email_body = none) ∧
    (∀ sj e, c7Env.structuredReply = .ok sj → c7Env.bodyReply = .error e →
        calls = [.llmStructuredSummary, .llmEmailBody] ∧
        d.error_log = [analysisErrMsg e] ∧
        d.final_summary = none ∧ d.email_sent = none ∧
        d.draft_email_subject = none ∧ d.draft_email_body = none) ∧
    (∀ sj b e, c7Env.structuredReply = .ok sj → c7Env.bodyReply = .ok b →
        c7Env.uiReply = .error e →
        calls = [.llmStructuredSummary, .llmEmailBody, .llmUiSummary] ∧
        d.error_log = [analysisErrMsg e] ∧
        d.final_summary = none ∧ d.email_sent = none ∧
        d.draft_email_subject = none ∧ d.draft_email_body = none) ∧
    (∀ sj b u e, c7Env.structuredReply = .ok sj → c7Env.bodyReply = .ok b →
        c7Env.uiReply = .ok u → c7Env.subjectReply = .error e →
        calls = [.llmStructuredSummary, .llmEmailBody, .llmUiSummary, .llmEmailSubject] ∧
        d.error_log = [analysisErrMsg e] ∧
        d.final_summary = none ∧ d.email_sent = none ∧
        d.draft_email_subject = none ∧ d.draft_email_body = none)) ∧
    (analysis_node c7Env c7State).2 = [.llmStructuredSummary, .llmEmailBody] ∧
    (analysis_node c7Env c7State).1.error_log = [analysisErrMsg "rate limited"] ∧
    (analysis_node c7Env c7State).1.final_summary = none :=
  ⟨C7_summarizer_first_and_abort c7Env c7State (by decide) (by decide), by decide⟩

def c1Env : AnalysisEnv :=
  { readParse := fun _ => .ok [c7Finding]
    csvWrite := .ok ()
    structuredReply := .ok { overall_summary := some "one critical issue" }
    bodyReply := .ok "Dear manager, findings attached."
    uiReply := .ok "1 critical finding on kafka-1."
    subjectReply := .ok "Critical OVAL findings"
    recipients := .ok ["manager@example.com"] }

def c1State : AgentState :=
  { user_query := .text "run a security scan"
    scan_results :=
      [{ vm_name := "kafka-1", status := "successful",
         report_path := some "/src/playbooks/security/reports/10.0.0.1_report.html" }] }

/-- C1: evaluated on a fully successful analysis with findings, the
analysis step's delta leaves `awaiting_acknowledgment`, the draft fields,
`vulnerable_vms` and `report_id` unwritten, and the step itself calls the
email transport — it does not park the workflow behind a draft. -/
theorem C1_analysis_sends_directly :
    (analysis_node c1Env c1State).1.awaiting_acknowledgment = none ∧
    (analysis_node c1Env c1State).1.draft_email_subject = none ∧
    (analysis_node c1Env c1State).1.draft_email_body = none ∧
    (analysis_node c1Env c1State).1.draft_attachment_path = none ∧
    (analysis_node c1Env c1State).1.vulnerable_vms = none ∧
    (analysis_node c1Env c1State).1.report_id = none ∧
    (analysis_node c1Env c1State).1.email_sent = some true ∧
    (analysis_node c1Env c1State).2 =
      [.llmStructuredSummary, .llmEmailBody, .llmUiSummary, .llmEmailSubject,
       .sendEmail ["manager@example.com"] "Critical OVAL findings"
         "Dear manager, findings attached."
         (some "/src/playbooks/security/reports/vulnerability_summary.csv")] := by
  decide

def c4Env : SupervisorEnv := { planReply := .ok ("", none) }

/-- C4: when the planner collaborator returns an empty reply, the supervisor
step's delta appends an error-log entry but its only emitted message is the
pre-announcement — no system message surfaces the failure. -/
theorem C4_supervisor_empty_error_unsurfaced :
    (supervisor_node c4Env (initState (.text "scan all vms"))).1.error_log =
      ["Supervisor: LLM returned an empty plan."] ∧
    (supervisor_node c4Env (initState (.text "scan all vms"))).1.messages =
      [("system", "Parsing user query to create a plan...")] := by
  decide

/-- A delta that leaves the human-in-the-loop fields unwritten. -/
def UntouchedHitl (d : Delta) : Prop :=
  d.vulnerable_vms = none ∧ d.report_id = none ∧ d.draft_email_subject = none ∧
  d.draft_email_body = none ∧ d.draft_attachment_path = none

lemma untouched_entry (s : AgentState) : UntouchedHitl (entry_router_node s).1 := by
  simp [UntouchedHitl, entry_router_node]

lemma untouched_supervisor (env : SupervisorEnv) (s : AgentState) :
    UntouchedHitl (supervisor_node env s).1 := by
  rcases h1 : env.planReply with e | ⟨raw, parsed⟩
  · simp [UntouchedHitl, supervisor_node, h1]
  · by_cases h2 : raw = ""
    · simp [UntouchedHitl, supervisor_node, h1, h2]
    · rcases parsed with _ | p <;> simp [UntouchedHitl, supervisor_node, h1, h2]

lemma untouched_discovery (env : DiscoveryEnv) (s : AgentState) :
    UntouchedHitl (discovery_node env s).1 := by
  rcases hp : s.plan with _ | p
  · simp [UntouchedHitl, discovery_node, hp]
  · rcases hi : env.inventory with e | e | vms
    · simp [UntouchedHitl, discovery_node, hp, hi]
    · simp [UntouchedHitl, discovery_node, hp, hi]
    · by_cases h0 : vms = []
      · simp [UntouchedHitl, discovery_node, hp, hi, h0]
      · by_cases ha : vms.filter (fun vm => vm.status == "ACTIVE") = [] <;>
          simp [UntouchedHitl, discovery_node, hp, hi, h0, ha]

lemma untouched_execution (env : ExecutionEnv) (s : AgentState) :
    UntouchedHitl (execution_node env s).1 := by
  by_cases h1 : kafkaFilter s.target_vms = []
  · simp [UntouchedHitl, execution_node, h1]
  · by_cases h2 : optTruthy (s.plan.getD {}).playbook = true
    · by_cases h3 : env.playbookFound = true <;>
        simp [UntouchedHitl, execution_node, h1, h2, h3]
    · simp [UntouchedHitl, execution_node, h1, h2]

lemma untouched_analysis (env : AnalysisEnv) (s : AgentState) :
    UntouchedHitl (analysis_node env s).1 := by
  by_cases h1 : s.scan_results = []
  · simp [UntouchedHitl, analysis_node, h1]
  · rcases hcv : collectVulns env s.scan_results with ⟨vulns, rows, msgs⟩
    by_cases h2 : vulns = []
    · simp [UntouchedHitl, analysis_node, h1, hcv, h2]
    · rcases h3 : env.structuredReply with e | sj
      · simp [UntouchedHitl, analysis_node, h1, hcv, h2, h3]
      · rcases h4 : env.bodyReply with e | b
        · simp [UntouchedHitl, analysis_node, h1, hcv, h2, h3, h4]
        · rcases h5 : env.uiReply with e | u
          · simp [UntouchedHitl, analysis_node, h1, hcv, h2, h3, h4, h5]
          · rcases h6 : env.subjectReply with e | sub
            · simp [UntouchedHitl, analysis_node, h1, hcv, h2, h3, h4, h5, h6]
            · rcases h7 : env.recipients with e | r
              · simp [UntouchedHitl, analysis_node, h1, hcv, h2, h3, h4, h5, h6, h7]
              · by_cases h8 : r = [] <;>
                  simp [UntouchedHitl, analysis_node, h1, hcv, h2, h3, h4, h5, h6, h7, h8]

lemma untouched_notification (env : NotificationEnv) (s : AgentState) :
    UntouchedHitl (notification_node env s).1 := by
  by_cases h1 : (optTruthy s.draft_email_subject && optTruthy s.draft_email_body) = true
  · rcases h2 : env.recipients with e | r
    · simp [UntouchedHitl, notification_node, h1, h2]
    · by_cases h3 : r = [] <;> simp [UntouchedHitl, notification_node, h1, h2, h3]
  · simp [UntouchedHitl, notification_node, h1]

lemma untouched_cloning (env : CloningEnv) (s : AgentState) :
    UntouchedHitl (cloning_node env s).1 := by
  by_cases h1 : s.vulnerable_vms = []
  · simp [UntouchedHitl, cloning_node, h1]
  · rcases h2 : env.networkReply with e | nid <;>
      simp [UntouchedHitl, cloning_node, h1, h2]

lemma stepDelta_untouched (st : Step) (s : AgentState) : UntouchedHitl (stepDelta st s) := by
  cases st with
  | entry => exact untouched_entry s
  | supervisor env => exact untouched_supervisor env s
  | discovery env => exact untouched_discovery env s
  | execution env => exact untouched_execution env s
  | analysis env => exact untouched_analysis env s
  | notification env => exact untouched_notification env s
  | cloning env => exact untouched_cloning env s

/-- A state in which the human-in-the-loop fields still have their
fresh-state values. -/
def HitlClean (st : AgentState) : Prop :=
  st.vulnerable_vms = [] ∧ st.report_id = none ∧ st.draft_email_subject = none ∧
  st.draft_email_body = none ∧ st.draft_attachment_path = none

lemma applyDelta_clean (s : AgentState) (d : Delta)
    (hs : HitlClean s) (hd : UntouchedHitl d) : HitlClean (applyDelta s d) := by
  obtain ⟨h1, h2, h3, h4, h5⟩ := hs
  obtain ⟨g1, g2, g3, g4, g5⟩ := hd
  refine ⟨?_, ?_, ?_, ?_, ?_⟩ <;>
    simp [applyDelta, g1, g2, g3, g4, g5, h1, h2, h3, h4, h5]

lemma runSteps_clean (steps : List Step) :
    ∀ s, HitlClean s → HitlClean (runSteps s steps) := by
  induction steps with
  | nil => intro s hs; exact hs
  | cons st rest ih =>
      intro s hs
      have hstep : runSteps s (st :: rest) = runSteps (runStep s st) rest := rfl
      rw [hstep]
      exact ih _ (applyDelta_clean _ _ hs (stepDelta_untouched st s))

/-- C9: no node ever writes `vulnerable_vms`, `report_id` or the draft email
fields, so in every state reachable from a fresh workflow state those fields
keep their empty initial values, and the cloning node in any such state
returns only the "vulnerable VMs not found" error delta and makes no
cloud-resource call. -/
theorem C9_hitl_fields_never_written (q : UserQuery) (steps : List Step) (env : CloningEnv) :
    (∀ (step : Step) (s' : AgentState), UntouchedHitl (stepDelta step s')) ∧
    (let st := runSteps (initState q) steps
    st.vulnerable_vms = [] ∧ st.report_id = none ∧ st.draft_email_subject = none ∧
    st.draft_email_body = none ∧ st.draft_attachment_path = none ∧
    (cloning_node env st).1.error_log =
      ["Cloning Error: List of vulnerable VMs not found in state."] ∧
    (cloning_node env st).1.messages =
      [("system", "Cloning Error: List of vulnerable VMs not found in state.")] ∧
    (cloning_node env st).2 = []) := by
  refine ⟨stepDelta_untouched, ?_⟩
  intro st
  have hc : HitlClean st :=
    runSteps_clean steps (initState q) ⟨rfl, rfl, rfl, rfl, rfl⟩
  obtain ⟨h1, h2, h3, h4, h5⟩ := hc
  refine ⟨h1, h2, h3, h4, h5, ?_, ?_, ?_⟩ <;> simp [cloning_node, h1]

end CMP
